import Mathlib

/-!
Shallow embedding of the tonic-hello-tls gRPC greeter service
(`src/main.rs`, `src/greeter.rs`, `src/messages.rs`, `src/db.rs`).

Two implementations of the `Greeter` service live in the repository: the
inline one in `main.rs` (with its own `mod messages` broadcaster) and the
library one in `greeter.rs` (using `messages.rs`).  Both are embedded here,
suffixed `Main` and `Lib` respectively.  Effects (database inserts,
broadcast publishes, outbound channel sends) are made explicit: handlers
thread a database state, consult oracles for fallible operations, and
record an event trace.
-/

namespace Hello

/-- The acknowledgement text `format!("Hello {}!", name)` used by both
`say_hello` and `say_hello_stream`. -/
def greet (name : String) : String := "Hello " ++ name ++ "!"

/-- Request message `HelloRequest { name }`. -/
structure HelloRequest where
  name : String
deriving DecidableEq, Repr

/-- Reply message `HelloReply { message }`. -/
structure HelloReply where
  message : String
deriving DecidableEq, Repr

/-- Status code (`tonic::Code`) — only `Internal` is produced by the handlers. -/
inductive Code
  | internal
deriving DecidableEq, Repr

/-- Failure status (`tonic::Status`) as constructed by the handlers: a code and a message
string (`err.to_string()`). -/
structure Status where
  code : Code
  msg : String
deriving DecidableEq, Repr

/-! Section: database (`db.rs`).

`Message` is the diesel row `{ id: i32, message: Option<String>,
updated: Option<i32> }`.  The store itself is an append-only list of rows
plus the next id; whether an individual `insert_message` call fails
(pool/database error) is supplied by an oracle, since those failures
originate outside the embedded code. -/

/-- Stored row (`db::Message`). -/
structure Message where
  id : Int
  message : Option String
  updated : Option Int
deriving DecidableEq, Repr

/-- State of the persistent store: rows in storage (insertion) order. -/
structure DbState where
  rows : List Message
  nextId : Int
deriving DecidableEq, Repr

/-- Insert, `Db::insert_message(&self, message) -> DbResult<Message>`: inserts a row
whose `message` column is the given text and returns the inserted row.
`fail` says whether this call's pool/database operation errors. -/
def insert_message (db : DbState) (fail : Bool) (text : String) :
    Except String Message × DbState :=
  if fail then (Except.error "Database error", db)
  else
    let row : Message := ⟨db.nextId, some text, none⟩
    (Except.ok row, ⟨db.rows ++ [row], db.nextId + 1⟩)

/-- Fetch, `Db::get_messages(&self) -> DbResult<Vec<Message>>`: returns all rows in
storage order (`fail` = this call's pool/database error). -/
def get_messages (db : DbState) (fail : Bool) : Except String (List Message) :=
  if fail then Except.error "Database error" else Except.ok db.rows

/-! Section: broadcast channel (`tokio::sync::broadcast`).

Both broadcasters wrap a `tokio::sync::broadcast::channel(16)`.  The
channel retains the last `cap` published values; `send` fails exactly when
there are zero active receivers, and otherwise appends.  A receiver is a
cursor `pos` into the publish history; `recv` on a cursor that has fallen
behind the retained window reports `Lagged` once and jumps the cursor to
the oldest retained value. -/

/-- State of one broadcast channel: its capacity and the full publish
history (only the last `cap` entries are retained for receivers). -/
structure BChan where
  cap : Nat
  history : List String
deriving DecidableEq, Repr

/-- Publish, `tokio::sync::broadcast::Sender::send`: errors iff there are no active
receivers, otherwise appends the value to the topic. -/
def broadcastSend (ch : BChan) (receivers : Nat) (msg : String) :
    Except String BChan :=
  if receivers = 0 then Except.error "channel closed"
  else Except.ok { ch with history := ch.history ++ [msg] }

/-- Index of the oldest value still retained by the channel. -/
def BChan.oldest (ch : BChan) : Nat := ch.history.length - ch.cap

/-- Result of `tokio::sync::broadcast::Receiver::recv`. -/
inductive RecvRes
  | ok (msg : String) (newPos : Nat)
  | lagged (missed : Nat) (newPos : Nat)
  | pending
  | closed
deriving DecidableEq, Repr

/-- Consume, `Receiver::recv`, for a receiver whose cursor is `pos`: `Lagged` when the
cursor fell out of the retained window (cursor jumps to the oldest retained
value), the next value otherwise; when the history is exhausted the call
pends while a sender is alive and reports `Closed` once none is. -/
def bchanRecv (ch : BChan) (pos : Nat) (senderAlive : Bool) : RecvRes :=
  if pos < ch.oldest then RecvRes.lagged (ch.oldest - pos) ch.oldest
  else if h : pos < ch.history.length then RecvRes.ok (ch.history.get ⟨pos, h⟩) (pos + 1)
  else if senderAlive then RecvRes.pending
  else RecvRes.closed

/-! Section: the two `Broadcaster` wrappers. -/

/-- In `main.rs`, `messages::Broadcaster::broadcast`: `self.tx.send(msg)?;
Ok(())` — propagates the send error (in particular the zero-receivers
error). -/
def broadcastMain (ch : BChan) (receivers : Nat) (msg : String) :
    Except String BChan :=
  match broadcastSend ch receivers msg with
  | Except.ok ch2 => Except.ok ch2
  | Except.error e => Except.error e

/-- In `messages.rs`, `Broadcaster::broadcast`: `if let Err(err) =
self.tx.send(msg) { eprintln!(...) }` — the send error is only logged, the
call always returns `()`. -/
def broadcastLib (ch : BChan) (receivers : Nat) (msg : String) : BChan :=
  match broadcastSend ch receivers msg with
  | Except.ok ch2 => ch2
  | Except.error _ => ch

/-! Section: unary `say_hello`.

Events recorded by a handler, in the order the corresponding effects are
issued. -/

/-- Trace events: an acknowledgement enqueued outbound, a persistence
append issued (`ok` = whether it succeeded), a broadcast publish issued,
and a forwarded error item. -/
inductive Ev
  | ack (text : String)
  | append (text : String) (ok : Bool)
  | publish (text : String)
  | errItem
deriving DecidableEq, Repr

/-- Result of a unary `say_hello`: the gRPC result plus the db state, the
broadcast channel state and the event trace. -/
structure UnaryOut where
  result : Except Status HelloReply
  db : DbState
  chan : BChan
  trace : List Ev
deriving Repr

/-- In `main.rs`, `say_hello`: builds the reply `"Hello {name}!"`, inserts the
reply text (propagating a `StoreError` as `Status::internal`), broadcasts
the reply text through `messages::Broadcaster::broadcast` (propagating its
error as `Status::internal`), then returns the reply. -/
def sayHelloMain (db : DbState) (dbFail : Bool) (ch : BChan) (receivers : Nat)
    (name : String) : UnaryOut :=
  let reply : HelloReply := ⟨greet name⟩
  match insert_message db dbFail reply.message with
  | (Except.error e, db2) =>
      ⟨Except.error ⟨Code.internal, e⟩, db2, ch, [Ev.append reply.message false]⟩
  | (Except.ok _, db2) =>
      match broadcastMain ch receivers reply.message with
      | Except.error e =>
          ⟨Except.error ⟨Code.internal, e⟩, db2, ch,
            [Ev.append reply.message true, Ev.publish reply.message]⟩
      | Except.ok ch2 =>
          ⟨Except.ok reply, db2, ch2,
            [Ev.append reply.message true, Ev.publish reply.message]⟩

/-- In `greeter.rs`, `say_hello`: identical except the broadcast goes through
`messages.rs`'s `Broadcaster::broadcast`, which never fails (it logs). -/
def sayHelloLib (db : DbState) (dbFail : Bool) (ch : BChan) (receivers : Nat)
    (name : String) : UnaryOut :=
  let reply : HelloReply := ⟨greet name⟩
  match insert_message db dbFail reply.message with
  | (Except.error e, db2) =>
      ⟨Except.error ⟨Code.internal, e⟩, db2, ch, [Ev.append reply.message false]⟩
  | (Except.ok _, db2) =>
      let ch2 := broadcastLib ch receivers reply.message
      ⟨Except.ok reply, db2, ch2,
        [Ev.append reply.message true, Ev.publish reply.message]⟩

/-! Section: error classifier (`match_for_io_error`, `main.rs`/`greeter.rs` 29–50).

A transport failure surfaced while reading the inbound stream is an opaque
chained error value.  Each node in the chain is either a `std::io::Error`
(exposing a kind), an `h2::Error` (whose wrapped I/O error, if any, is
reachable only through `get_io()`, not `source()`), or some other error;
`h2` and other errors may or may not have a `source()`. -/

/-- Kind of a low-level I/O error (`std::io::ErrorKind`), abstracted to the kinds the classifier
distinguishes. -/
inductive IoKind
  | brokenPipe
  | connectionReset
  | otherKind
deriving DecidableEq, Repr

/-- A chained transport error value, one constructor per shape a node in
the cause chain can take. -/
inductive ChainErr
  | ioErr (k : IoKind)
  | h2Io (k : IoKind)
  | h2Src (src : ChainErr)
  | h2Leaf
  | wrapSrc (src : ChainErr)
  | wrapLeaf
deriving DecidableEq, Repr

/-- The classifier walk `match_for_io_error(err_status)`: walks the cause chain; at each level,
first tries to downcast to `std::io::Error`, then to `h2::Error` (reading
its `get_io()`), and otherwise follows `source()`, returning `None` when
the chain ends. -/
def match_for_io_error : ChainErr → Option IoKind
  | ChainErr.ioErr k => some k
  | ChainErr.h2Io k => some k
  | ChainErr.h2Src src => match_for_io_error src
  | ChainErr.h2Leaf => none
  | ChainErr.wrapSrc src => match_for_io_error src
  | ChainErr.wrapLeaf => none

/-- The classification the relay's error arm induces. -/
inductive Classification
  | benignDisconnect
  | propagate
deriving DecidableEq, Repr

/-- The relay's error-arm decision (`say_hello_stream` 166–173): benign
disconnect exactly when `match_for_io_error` finds an I/O error whose kind
is `BrokenPipe`; every other case falls through to forwarding. -/
def classify (e : ChainErr) : Classification :=
  match match_for_io_error e with
  | some k =>
      if k = IoKind.brokenPipe then Classification.benignDisconnect
      else Classification.propagate
  | none => Classification.propagate

/-- Every low-level I/O fault encountered along the cause-chain walk (the
h2 layer's `get_io()` encoding included), in walk order. -/
def ioKindsInChain : ChainErr → List IoKind
  | ChainErr.ioErr k => [k]
  | ChainErr.h2Io k => [k]
  | ChainErr.h2Src src => ioKindsInChain src
  | ChainErr.h2Leaf => []
  | ChainErr.wrapSrc src => ioKindsInChain src
  | ChainErr.wrapLeaf => []

/-! Section: stream relay (`say_hello_stream`, `main.rs`/`greeter.rs` 143–183).

The spawned task reads inbound items in order.  Per `Ok` item it sends the
acknowledgement into the bounded outbound channel — `.expect("working rx")`,
i.e. a panic if the receiving half is gone —, then issues the db insert of
the raw name (failure logged) and the broadcast of the raw name (failure
logged in `main.rs`, swallowed inside `messages.rs` for `greeter.rs`).
Per `Err` item it breaks on a broken-pipe classification, otherwise
forwards the error outbound, breaking only if that send fails.

The outbound channel is modelled by `closeAt`: `none` means the client
keeps the response stream open, `some k` means the channel accepts the
first `k` sends and is closed from the `k`-th send on. -/

/-- An item of the outbound response stream. -/
inductive OutItem
  | ok (msg : String)
  | err (e : ChainErr)
deriving DecidableEq, Repr

/-- How the relay task ended. -/
inductive RelayExit
  | inboundDone
  | brokenPipe
  | respDropped
  | panicked
deriving DecidableEq, Repr

/-- Whether the `sentCount`-th outbound send succeeds (the channel is
closed from send number `k` on when `closeAt = some k`). -/
def sendOk (closeAt : Option Nat) (sentCount : Nat) : Bool :=
  match closeAt with
  | none => true
  | some k => sentCount < k

/-- Mutable state threaded through the relay loop. -/
structure RelayState where
  out : List OutItem
  sentCount : Nat
  db : DbState
  dbCalls : Nat
  chan : BChan
  receivers : Nat
  trace : List Ev
deriving Repr

/-- One iteration of the `main.rs` relay loop body on an inbound item;
returns the updated state and `some exit` when the loop breaks or the task
panics. `dbFail i` says whether the `i`-th `insert_message` call fails. -/
def relayStepMain (closeAt : Option Nat) (dbFail : Nat → Bool)
    (s : RelayState) (item : Except ChainErr HelloRequest) :
    RelayState × Option RelayExit :=
  match item with
  | Except.ok v =>
      if sendOk closeAt s.sentCount then
        let s1 := { s with
          out := s.out ++ [OutItem.ok (greet v.name)]
          sentCount := s.sentCount + 1
          trace := s.trace ++ [Ev.ack (greet v.name)] }
        let (res, db2) := insert_message s1.db (dbFail s1.dbCalls) v.name
        let s2 := { s1 with
          db := db2
          dbCalls := s1.dbCalls + 1
          trace := s1.trace ++ [Ev.append v.name res.toBool] }
        let s3 :=
          match broadcastMain s2.chan s2.receivers v.name with
          | Except.ok ch2 => { s2 with chan := ch2, trace := s2.trace ++ [Ev.publish v.name] }
          | Except.error _ => { s2 with trace := s2.trace ++ [Ev.publish v.name] }
        (s3, none)
      else
        (s, some RelayExit.panicked)
  | Except.error e =>
      match match_for_io_error e with
      | some k =>
          if k = IoKind.brokenPipe then (s, some RelayExit.brokenPipe)
          else
            if sendOk closeAt s.sentCount then
              ({ s with
                  out := s.out ++ [OutItem.err e]
                  sentCount := s.sentCount + 1
                  trace := s.trace ++ [Ev.errItem] }, none)
            else (s, some RelayExit.respDropped)
      | none =>
          if sendOk closeAt s.sentCount then
            ({ s with
                out := s.out ++ [OutItem.err e]
                sentCount := s.sentCount + 1
                trace := s.trace ++ [Ev.errItem] }, none)
          else (s, some RelayExit.respDropped)

/-- The `main.rs` relay loop over the whole inbound stream. -/
def relayRunMain (closeAt : Option Nat) (dbFail : Nat → Bool) :
    List (Except ChainErr HelloRequest) → RelayState → RelayState × RelayExit
  | [], s => (s, RelayExit.inboundDone)
  | item :: rest, s =>
      match relayStepMain closeAt dbFail s item with
      | (s2, none) => relayRunMain closeAt dbFail rest s2
      | (s2, some ex) => (s2, ex)

/-- One iteration of the `greeter.rs` relay loop body: identical to
`main.rs` except the broadcast goes through `messages.rs`'s infallible
(logging) `broadcast`. -/
def relayStepLib (closeAt : Option Nat) (dbFail : Nat → Bool)
    (s : RelayState) (item : Except ChainErr HelloRequest) :
    RelayState × Option RelayExit :=
  match item with
  | Except.ok v =>
      if sendOk closeAt s.sentCount then
        let s1 := { s with
          out := s.out ++ [OutItem.ok (greet v.name)]
          sentCount := s.sentCount + 1
          trace := s.trace ++ [Ev.ack (greet v.name)] }
        let (res, db2) := insert_message s1.db (dbFail s1.dbCalls) v.name
        let s2 := { s1 with
          db := db2
          dbCalls := s1.dbCalls + 1
          trace := s1.trace ++ [Ev.append v.name res.toBool] }
        let s3 := { s2 with
          chan := broadcastLib s2.chan s2.receivers v.name
          trace := s2.trace ++ [Ev.publish v.name] }
        (s3, none)
      else
        (s, some RelayExit.panicked)
  | Except.error e =>
      match match_for_io_error e with
      | some k =>
          if k = IoKind.brokenPipe then (s, some RelayExit.brokenPipe)
          else
            if sendOk closeAt s.sentCount then
              ({ s with
                  out := s.out ++ [OutItem.err e]
                  sentCount := s.sentCount + 1
                  trace := s.trace ++ [Ev.errItem] }, none)
            else (s, some RelayExit.respDropped)
      | none =>
          if sendOk closeAt s.sentCount then
            ({ s with
                out := s.out ++ [OutItem.err e]
                sentCount := s.sentCount + 1
                trace := s.trace ++ [Ev.errItem] }, none)
          else (s, some RelayExit.respDropped)

/-- The `greeter.rs` relay loop over the whole inbound stream. -/
def relayRunLib (closeAt : Option Nat) (dbFail : Nat → Bool) :
    List (Except ChainErr HelloRequest) → RelayState → RelayState × RelayExit
  | [], s => (s, RelayExit.inboundDone)
  | item :: rest, s =>
      match relayStepLib closeAt dbFail s item with
      | (s2, none) => relayRunLib closeAt dbFail rest s2
      | (s2, some ex) => (s2, ex)

/-! Section: `list_messages` (`main.rs` 193–232, `greeter.rs` 191–230).

Fetches all rows and maps each to `d.message.unwrap_or_default()`; a store
error is propagated as `Status::internal`. -/

/-- In `main.rs`, `list_messages` on the rows returned by `get_messages`. -/
def listMessagesMain (db : DbState) (dbFail : Bool) :
    Except Status (List String) :=
  match get_messages db dbFail with
  | Except.error e => Except.error ⟨Code.internal, e⟩
  | Except.ok msgs => Except.ok (msgs.map (fun d => d.message.getD ""))

/-- In `greeter.rs`, `list_messages` — textually the same handler. -/
def listMessagesLib (db : DbState) (dbFail : Bool) :
    Except Status (List String) :=
  match get_messages db dbFail with
  | Except.error e => Except.error ⟨Code.internal, e⟩
  | Except.ok msgs => Except.ok (msgs.map (fun d => d.message.getD ""))

/-! Section: `list_messages_stream` (`main.rs` 236–255, `greeter.rs` 234–253).

The spawned task is `while let Ok(msg) = broadcast_rx.recv().await { ...
tx.send(msg) ... }`: every `recv` outcome that is not `Ok` — `Closed`, but
also `Lagged` — ends the loop, as does a failed forward to the client.
`fwdOk` says whether forwarding to the client still succeeds (the client
holds the response stream open); `fuel` bounds how many loop iterations we
unfold. -/

/-- How a run of the subscriber relay loop left off. -/
inductive SubExit
  | waiting (pos : Nat)
  | ended
  | outOfFuel (pos : Nat)
deriving DecidableEq, Repr

/-- The `main.rs` live-feed relay loop: forwarded messages plus how the
loop left off, for a subscriber whose cursor starts at `pos`. -/
def subRelayMain (ch : BChan) (senderAlive : Bool) (fwdOk : Bool) :
    Nat → Nat → List String × SubExit
  | pos, 0 => ([], SubExit.outOfFuel pos)
  | pos, fuel + 1 =>
      match bchanRecv ch pos senderAlive with
      | RecvRes.ok msg p2 =>
          if fwdOk then
            let (rest, ex) := subRelayMain ch senderAlive fwdOk p2 fuel
            (msg :: rest, ex)
          else ([], SubExit.ended)
      | RecvRes.lagged _ _ => ([], SubExit.ended)
      | RecvRes.pending => ([], SubExit.waiting pos)
      | RecvRes.closed => ([], SubExit.ended)

/-- The `greeter.rs` live-feed relay loop — textually the same task. -/
def subRelayLib (ch : BChan) (senderAlive : Bool) (fwdOk : Bool) :
    Nat → Nat → List String × SubExit
  | pos, 0 => ([], SubExit.outOfFuel pos)
  | pos, fuel + 1 =>
      match bchanRecv ch pos senderAlive with
      | RecvRes.ok msg p2 =>
          if fwdOk then
            let (rest, ex) := subRelayLib ch senderAlive fwdOk p2 fuel
            (msg :: rest, ex)
          else ([], SubExit.ended)
      | RecvRes.lagged _ _ => ([], SubExit.ended)
      | RecvRes.pending => ([], SubExit.waiting pos)
      | RecvRes.closed => ([], SubExit.ended)

/-! Section: derived helpers used to state the properties. -/

/-- Initial relay state at stream open: nothing sent, given store and
broadcast channel shared with the service. -/
def initRelay (db : DbState) (ch : BChan) (receivers : Nat) : RelayState :=
  ⟨[], 0, db, 0, ch, receivers, []⟩

/-- Inbound stream consisting of the given names, all read successfully. -/
def okItems : List String → List (Except ChainErr HelloRequest)
  | [] => []
  | n :: rest => Except.ok ⟨n⟩ :: okItems rest

/-- Expected outbound acknowledgements for those names, in order. -/
def ackItems : List String → List OutItem
  | [] => []
  | n :: rest => OutItem.ok (greet n) :: ackItems rest

/-- Rows the streaming path appends for those names: the raw names, with
consecutive ids from `startId`. -/
def appendRows (startId : Int) : List String → List Message
  | [] => []
  | n :: rest => ⟨startId, some n, none⟩ :: appendRows (startId + 1) rest

/-- Per-item effect trace of the streaming path with persistence available:
acknowledgement, then append of the raw name, then publish of the raw
name. -/
def traceOf : List String → List Ev
  | [] => []
  | n :: rest => Ev.ack (greet n) :: Ev.append n true :: Ev.publish n :: traceOf rest

/-! From here on: theorems.  First, workhorse lemmas about single relay
steps and runs, shared by the claim theorems below. -/

/-- One successful-send iteration of the `main.rs` relay loop, fully
characterised: the acknowledgement goes out first, then the insert of the
raw name (failing or not per the oracle), then the broadcast of the raw
name; the loop continues. -/
theorem relayStepMain_ok_spec (closeAt : Option Nat) (dbFail : Nat → Bool)
    (s : RelayState) (v : HelloRequest) (h : sendOk closeAt s.sentCount = true) :
    relayStepMain closeAt dbFail s (Except.ok v)
      = ({ s with
            out := s.out ++ [OutItem.ok (greet v.name)]
            sentCount := s.sentCount + 1
            db := (insert_message s.db (dbFail s.dbCalls) v.name).2
            dbCalls := s.dbCalls + 1
            chan := broadcastLib s.chan s.receivers v.name
            trace := s.trace ++ [Ev.ack (greet v.name),
                      Ev.append v.name (!dbFail s.dbCalls), Ev.publish v.name] }, none) := by
  cases hdb : dbFail s.dbCalls <;>
    by_cases hr : s.receivers = 0 <;>
      simp [relayStepMain, h, hdb, hr, insert_message, broadcastMain,
        broadcastLib, broadcastSend, Except.toBool]

/-- The matching characterisation for the `greeter.rs` relay loop body. -/
theorem relayStepLib_ok_spec (closeAt : Option Nat) (dbFail : Nat → Bool)
    (s : RelayState) (v : HelloRequest) (h : sendOk closeAt s.sentCount = true) :
    relayStepLib closeAt dbFail s (Except.ok v)
      = ({ s with
            out := s.out ++ [OutItem.ok (greet v.name)]
            sentCount := s.sentCount + 1
            db := (insert_message s.db (dbFail s.dbCalls) v.name).2
            dbCalls := s.dbCalls + 1
            chan := broadcastLib s.chan s.receivers v.name
            trace := s.trace ++ [Ev.ack (greet v.name),
                      Ev.append v.name (!dbFail s.dbCalls), Ev.publish v.name] }, none) := by
  cases hdb : dbFail s.dbCalls <;>
    simp [relayStepLib, h, hdb, insert_message, Except.toBool]

/-- When the outbound channel no longer accepts sends, the `main.rs` relay
hits `.expect("working rx")` on an `Ok` item: the task panics. -/
theorem relayStepMain_ok_closed (closeAt : Option Nat) (dbFail : Nat → Bool)
    (s : RelayState) (v : HelloRequest) (h : sendOk closeAt s.sentCount = false) :
    relayStepMain closeAt dbFail s (Except.ok v) = (s, some RelayExit.panicked) := by
  simp [relayStepMain, h]

/-- The same panic on the `greeter.rs` side. -/
theorem relayStepLib_ok_closed (closeAt : Option Nat) (dbFail : Nat → Bool)
    (s : RelayState) (v : HelloRequest) (h : sendOk closeAt s.sentCount = false) :
    relayStepLib closeAt dbFail s (Except.ok v) = (s, some RelayExit.panicked) := by
  simp [relayStepLib, h]

/-- A read error classified as a benign disconnect breaks the loop at once:
state untouched, nothing further sent. -/
theorem relayStepMain_err_benign (closeAt : Option Nat) (dbFail : Nat → Bool)
    (s : RelayState) (e : ChainErr)
    (h : classify e = Classification.benignDisconnect) :
    relayStepMain closeAt dbFail s (Except.error e) = (s, some RelayExit.brokenPipe) := by
  unfold classify at h
  cases hio : match_for_io_error e with
  | none => rw [hio] at h; simp at h
  | some k =>
      rw [hio] at h
      cases k with
      | brokenPipe => simp [relayStepMain, hio]
      | connectionReset => simp at h
      | otherKind => simp at h

/-- A read error not classified benign is forwarded outbound; when that
send succeeds the loop continues. -/
theorem relayStepMain_err_fwd (closeAt : Option Nat) (dbFail : Nat → Bool)
    (s : RelayState) (e : ChainErr)
    (h : classify e = Classification.propagate)
    (hs : sendOk closeAt s.sentCount = true) :
    relayStepMain closeAt dbFail s (Except.error e)
      = ({ s with
            out := s.out ++ [OutItem.err e]
            sentCount := s.sentCount + 1
            trace := s.trace ++ [Ev.errItem] }, none) := by
  unfold classify at h
  cases hio : match_for_io_error e with
  | none => simp [relayStepMain, hio, hs]
  | some k =>
      rw [hio] at h
      cases k with
      | brokenPipe => simp at h
      | connectionReset => simp [relayStepMain, hio, hs]
      | otherKind => simp [relayStepMain, hio, hs]

/-- A read error not classified benign, when the forward fails because the
response stream was dropped, breaks the loop. -/
theorem relayStepMain_err_dropped (closeAt : Option Nat) (dbFail : Nat → Bool)
    (s : RelayState) (e : ChainErr)
    (h : classify e = Classification.propagate)
    (hs : sendOk closeAt s.sentCount = false) :
    relayStepMain closeAt dbFail s (Except.error e) = (s, some RelayExit.respDropped) := by
  unfold classify at h
  cases hio : match_for_io_error e with
  | none => simp [relayStepMain, hio, hs]
  | some k =>
      rw [hio] at h
      cases k with
      | brokenPipe => simp at h
      | connectionReset => simp [relayStepMain, hio, hs]
      | otherKind => simp [relayStepMain, hio, hs]

/-- The relay loop body never reports the normal-termination exit as an
early break. -/
theorem relayStepMain_ne_inboundDone (closeAt : Option Nat) (dbFail : Nat → Bool)
    (s : RelayState) (item : Except ChainErr HelloRequest) :
    (relayStepMain closeAt dbFail s item).2 ≠ some RelayExit.inboundDone := by
  cases item with
  | ok v =>
      cases hs : sendOk closeAt s.sentCount with
      | true => rw [relayStepMain_ok_spec closeAt dbFail s v hs]; simp
      | false => rw [relayStepMain_ok_closed closeAt dbFail s v hs]; simp
  | error e =>
      cases hio : match_for_io_error e with
      | none => cases hs : sendOk closeAt s.sentCount <;> simp [relayStepMain, hio, hs]
      | some k =>
          cases k <;> cases hs : sendOk closeAt s.sentCount <;>
            simp [relayStepMain, hio, hs]

/-- Running the relay over a concatenation: when the first part is fully
consumed, the run continues over the second part from the reached state. -/
theorem relayRunMain_append (closeAt : Option Nat) (dbFail : Nat → Bool)
    (xs ys : List (Except ChainErr HelloRequest)) (s : RelayState)
    (h : (relayRunMain closeAt dbFail xs s).2 = RelayExit.inboundDone) :
    relayRunMain closeAt dbFail (xs ++ ys) s
      = relayRunMain closeAt dbFail ys (relayRunMain closeAt dbFail xs s).1 := by
  induction xs generalizing s with
  | nil => simp [relayRunMain]
  | cons x rest ih =>
      cases hstep : relayStepMain closeAt dbFail s x with
      | mk s2 exQ =>
          cases exQ with
          | none =>
              rw [relayRunMain] at h
              rw [hstep] at h
              simp only [List.cons_append, relayRunMain, hstep]
              exact ih s2 h
          | some ex =>
              rw [relayRunMain] at h
              rw [hstep] at h
              simp only at h
              subst h
              exact absurd (by rw [hstep]) (relayStepMain_ne_inboundDone closeAt dbFail s x)

/-- Running the `main.rs` relay over an all-`Ok` inbound stream with the
client still reading: it terminates normally and emits exactly one
acknowledgement per name, in order. -/
theorem relayRunMain_okItems (dbFail : Nat → Bool) (names : List String)
    (s : RelayState) :
    (relayRunMain none dbFail (okItems names) s).2 = RelayExit.inboundDone ∧
    (relayRunMain none dbFail (okItems names) s).1.out = s.out ++ ackItems names := by
  induction names generalizing s with
  | nil => simp [okItems, ackItems, relayRunMain]
  | cons n rest ih =>
      have hs : sendOk none s.sentCount = true := rfl
      have hstep := relayStepMain_ok_spec none dbFail s ⟨n⟩ hs
      rw [okItems, relayRunMain, hstep]
      obtain ⟨h1, h2⟩ := ih ({ s with
        out := s.out ++ [OutItem.ok (greet n)]
        sentCount := s.sentCount + 1
        db := (insert_message s.db (dbFail s.dbCalls) n).2
        dbCalls := s.dbCalls + 1
        chan := broadcastLib s.chan s.receivers n
        trace := s.trace ++ [Ev.ack (greet n),
                  Ev.append n (!dbFail s.dbCalls), Ev.publish n] })
      refine ⟨h1, ?_⟩
      rw [h2]
      simp [ackItems]

/-- The same all-`Ok` run with persistence available: the db gains one row
per name — the raw names in arrival order — and the trace interleaves
acknowledgement, append and publish per item, in that order. -/
theorem relayRunMain_okItems_noFail (names : List String) (s : RelayState) :
    (relayRunMain none (fun _ => false) (okItems names) s).1.db.rows
        = s.db.rows ++ appendRows s.db.nextId names ∧
    (relayRunMain none (fun _ => false) (okItems names) s).1.db.nextId
        = s.db.nextId + names.length ∧
    (relayRunMain none (fun _ => false) (okItems names) s).1.trace
        = s.trace ++ traceOf names := by
  induction names generalizing s with
  | nil => simp [okItems, appendRows, traceOf, relayRunMain]
  | cons n rest ih =>
      have hs : sendOk none s.sentCount = true := rfl
      have hstep := relayStepMain_ok_spec none (fun _ => false) s ⟨n⟩ hs
      rw [okItems, relayRunMain, hstep]
      obtain ⟨h1, h2, h3⟩ := ih ({ s with
        out := s.out ++ [OutItem.ok (greet n)]
        sentCount := s.sentCount + 1
        db := (insert_message s.db false n).2
        dbCalls := s.dbCalls + 1
        chan := broadcastLib s.chan s.receivers n
        trace := s.trace ++ [Ev.ack (greet n), Ev.append n true, Ev.publish n] })
      refine ⟨h1.trans ?_, h2.trans ?_, h3.trans ?_⟩
      · simp [insert_message, appendRows]
      · simp [insert_message]; omega
      · simp [traceOf]

/-- The walk returns exactly the first I/O fault encountered along the
cause chain. -/
theorem match_for_io_error_head (e : ChainErr) :
    match_for_io_error e = (ioKindsInChain e).head? := by
  induction e <;> simp [match_for_io_error, ioKindsInChain, *]

/-- The loop bodies of the two `say_hello_stream` implementations agree on
every item and state. -/
theorem relayStep_eq (closeAt : Option Nat) (dbFail : Nat → Bool)
    (s : RelayState) (item : Except ChainErr HelloRequest) :
    relayStepMain closeAt dbFail s item = relayStepLib closeAt dbFail s item := by
  cases item with
  | error e => rfl
  | ok v =>
      cases hs : sendOk closeAt s.sentCount with
      | true =>
          rw [relayStepMain_ok_spec closeAt dbFail s v hs,
            relayStepLib_ok_spec closeAt dbFail s v hs]
      | false =>
          rw [relayStepMain_ok_closed closeAt dbFail s v hs,
            relayStepLib_ok_closed closeAt dbFail s v hs]

/-- The two `say_hello_stream` relay loops agree on every inbound stream
and state. -/
theorem relayRun_eq (closeAt : Option Nat) (dbFail : Nat → Bool)
    (items : List (Except ChainErr HelloRequest)) (s : RelayState) :
    relayRunMain closeAt dbFail items s = relayRunLib closeAt dbFail items s := by
  induction items generalizing s with
  | nil => rfl
  | cons item rest ih =>
      rw [relayRunMain, relayRunLib, relayStep_eq]
      cases relayStepLib closeAt dbFail s item with
      | mk s2 exQ => cases exQ with
        | none => exact ih s2
        | some ex => rfl

/-- The two `list_messages_stream` relay loops agree on every channel
state, cursor and fuel. -/
theorem subRelay_eq (ch : BChan) (senderAlive fwdOk : Bool) (pos fuel : Nat) :
    subRelayMain ch senderAlive fwdOk pos fuel
      = subRelayLib ch senderAlive fwdOk pos fuel := by
  induction fuel generalizing pos with
  | zero => rfl
  | succ fuel ih =>
      rw [subRelayMain, subRelayLib]
      cases bchanRecv ch pos senderAlive with
      | ok msg p2 =>
          cases fwdOk with
          | true => simp only [ih]
          | false => rfl
      | lagged n p2 => rfl
      | pending => rfl
      | closed => rfl

/-- The two `list_messages` handlers agree. -/
theorem listMessages_eq (db : DbState) (dbFail : Bool) :
    listMessagesMain db dbFail = listMessagesLib db dbFail := rfl

/-- The two unary `say_hello` handlers agree whenever at least one live
subscriber exists (the broadcast send then succeeds). -/
theorem sayHello_eq (db : DbState) (dbFail : Bool) (ch : BChan)
    (receivers : Nat) (name : String) (h : receivers ≠ 0) :
    sayHelloMain db dbFail ch receivers name
      = sayHelloLib db dbFail ch receivers name := by
  cases dbFail <;>
    simp [sayHelloMain, sayHelloLib, insert_message, broadcastMain,
      broadcastLib, broadcastSend, h]

/-- A row appended by the streaming path reads back as exactly its raw
name text. -/
theorem appendRows_texts (startId : Int) (names : List String) :
    (appendRows startId names).map (fun d => d.message.getD "") = names := by
  induction names generalizing startId with
  | nil => rfl
  | cons n rest ih => simp [appendRows, ih]

/-! Section: the claims. -/

/-- C1: every accepted unary send is acknowledged with exactly
`"Hello " ++ name ++ "!"`; on a bidirectional stream with the client
reading, the outbound sequence is the order-preserving image of the
inbound names under that greeting — one acknowledgement per name, no
reordering, batching, dropping or duplication — and a trailing read error
contributes at most one trailing error item (none when it is a benign
disconnect). -/
theorem c1_ack_text_and_order :
    (∀ db dbFail ch receivers name r,
        (sayHelloMain db dbFail ch receivers name).result = Except.ok r →
        r.message = "Hello " ++ name ++ "!") ∧
    (∀ dbFail names db ch receivers,
        (relayRunMain none dbFail (okItems names) (initRelay db ch receivers)).1.out
          = ackItems names) ∧
    (∀ dbFail names db ch receivers e,
        (relayRunMain none dbFail (okItems names ++ [Except.error e])
            (initRelay db ch receivers)).1.out
          = ackItems names
            ++ (if classify e = Classification.benignDisconnect then []
                else [OutItem.err e])) := by
  refine ⟨?_, ?_, ?_⟩
  · intro db dbFail ch receivers name r h
    cases dbFail with
    | true => simp [sayHelloMain, insert_message] at h
    | false =>
        by_cases hr : receivers = 0
        · simp [sayHelloMain, insert_message, broadcastMain, broadcastSend, hr] at h
        · simp [sayHelloMain, insert_message, broadcastMain, broadcastSend, hr] at h
          rw [← h]
          rfl
  · intro dbFail names db ch receivers
    have h := (relayRunMain_okItems dbFail names (initRelay db ch receivers)).2
    simpa [initRelay] using h
  · intro dbFail names db ch receivers e
    have hdone := (relayRunMain_okItems dbFail names (initRelay db ch receivers)).1
    have hout := (relayRunMain_okItems dbFail names (initRelay db ch receivers)).2
    rw [relayRunMain_append none dbFail _ _ _ hdone]
    by_cases hb : classify e = Classification.benignDisconnect
    · rw [relayRunMain,
        relayStepMain_err_benign none dbFail _ e hb]
      simp only [hb, if_pos]
      simpa [initRelay] using hout
    · have hp : classify e = Classification.propagate := by
        cases hcl : classify e
        · exact absurd hcl hb
        · rfl
      have hsend : sendOk none
          (relayRunMain none dbFail (okItems names) (initRelay db ch receivers)).1.sentCount
            = true := rfl
      rw [relayRunMain, relayStepMain_err_fwd none dbFail _ e hp hsend]
      simp only [relayRunMain, hb, if_neg]
      simpa [initRelay] using hout

/-- C1 witness: the unary conjunct applied at name `"Alice"`. -/
theorem c1_witness :
    HelloReply.message ⟨"Hello Alice!"⟩ = "Hello " ++ "Alice" ++ "!" :=
  c1_ack_text_and_order.1 ⟨[], 0⟩ false ⟨16, []⟩ 1 "Alice" ⟨"Hello Alice!"⟩ rfl

/-- C2 (code bug in `main.rs`): with zero active subscribers,
`messages::Broadcaster::broadcast` in `main.rs` propagates the broadcast
`SendError` instead of treating the publish as a successful no-op, so a
unary `SendMessage` with no live-feed subscriber returns an internal-error
status rather than the normal `"Hello Alice!"` reply.  The `messages.rs`
broadcaster used by `greeter.rs` implements the claimed behaviour. -/
theorem c2_zero_subscriber_eval :
    broadcastMain ⟨16, []⟩ 0 "Hello Alice!" = Except.error "channel closed" ∧
    (sayHelloMain ⟨[], 0⟩ false ⟨16, []⟩ 0 "Alice").result
        = Except.error ⟨Code.internal, "channel closed"⟩ ∧
    (sayHelloLib ⟨[], 0⟩ false ⟨16, []⟩ 0 "Alice").result
        = Except.ok ⟨"Hello Alice!"⟩ :=
  ⟨rfl, rfl, rfl⟩

/-- C3 counterexample: on the unary path a persistence failure IS
propagated to the client, as an internal-error status. -/
theorem c3_counterexample :
    (sayHelloMain ⟨[], 0⟩ true ⟨16, []⟩ 1 "Carol").result
      = Except.error ⟨Code.internal, "Database error"⟩ := rfl

/-- C3 (amended): on the streaming path a persistence failure is never
propagated — the acknowledgement is still streamed and the relay
continues, whatever the insert oracle says — but on the unary path a
persistence failure is returned to the client as an internal-error
status. -/
theorem c3_amended :
    (∀ closeAt dbFail s v, sendOk closeAt s.sentCount = true →
        (relayStepMain closeAt dbFail s (Except.ok v)).2 = none ∧
        (relayStepMain closeAt dbFail s (Except.ok v)).1.out
          = s.out ++ [OutItem.ok (greet v.name)]) ∧
    (∀ db ch receivers name,
        (sayHelloMain db true ch receivers name).result
          = Except.error ⟨Code.internal, "Database error"⟩) := by
  constructor
  · intro closeAt dbFail s v h
    rw [relayStepMain_ok_spec closeAt dbFail s v h]
    exact ⟨rfl, rfl⟩
  · intro db ch receivers name
    rfl

/-- C3 witness: a streaming item processed while the insert oracle fails
still yields the acknowledgement and no exit. -/
theorem c3_witness :
    (relayStepMain none (fun _ => true) (initRelay ⟨[], 0⟩ ⟨16, []⟩ 1)
        (Except.ok ⟨"Carol"⟩)).2 = none ∧
    (relayStepMain none (fun _ => true) (initRelay ⟨[], 0⟩ ⟨16, []⟩ 1)
        (Except.ok ⟨"Carol"⟩)).1.out = [OutItem.ok (greet "Carol")] :=
  c3_amended.1 none (fun _ => true) (initRelay ⟨[], 0⟩ ⟨16, []⟩ 1) ⟨"Carol"⟩ rfl

/-- C4 counterexample: a streaming send of `"Alice"` persists the raw name
`"Alice"`, not the acknowledged greeting `"Hello Alice!"`; `ListMessages`
then returns `["Alice"]`. -/
theorem c4_counterexample :
    ((relayRunMain none (fun _ => false) [Except.ok ⟨"Alice"⟩]
        (initRelay ⟨[], 0⟩ ⟨16, []⟩ 1)).1.db.rows = [⟨0, some "Alice", none⟩]) ∧
    (listMessagesMain (relayRunMain none (fun _ => false) [Except.ok ⟨"Alice"⟩]
        (initRelay ⟨[], 0⟩ ⟨16, []⟩ 1)).1.db false = Except.ok ["Alice"]) ∧
    ("Alice" : String) ≠ "Hello Alice!" :=
  ⟨rfl, rfl, by decide⟩

/-- C4 (amended): `ListMessages` returns every stored record's text in
storage order, with the empty string for a record lacking text; after N
successful sends with persistence available the sequence contains the N
appended texts in append order — but a unary send appends the greeting
`"Hello {name}!"` while a streaming send appends the raw name. -/
theorem c4_amended :
    (∀ db, listMessagesMain db false
        = Except.ok (db.rows.map (fun d => d.message.getD ""))) ∧
    (∀ db ch receivers name,
        (sayHelloMain db false ch receivers name).db.rows
          = db.rows ++ [⟨db.nextId, some (greet name), none⟩]) ∧
    (∀ names db ch receivers,
        (relayRunMain none (fun _ => false) (okItems names)
            (initRelay db ch receivers)).1.db.rows
          = db.rows ++ appendRows db.nextId names) ∧
    (∀ names ch receivers,
        listMessagesMain (relayRunMain none (fun _ => false) (okItems names)
            (initRelay ⟨[], 0⟩ ch receivers)).1.db false
          = Except.ok names) := by
  refine ⟨?_, ?_, ?_, ?_⟩
  · intro db
    simp [listMessagesMain, get_messages]
  · intro db ch receivers name
    by_cases hr : receivers = 0 <;>
      simp [sayHelloMain, insert_message, broadcastMain, broadcastSend, hr]
  · intro names db ch receivers
    have h := (relayRunMain_okItems_noFail names (initRelay db ch receivers)).1
    simpa [initRelay] using h
  · intro names ch receivers
    have h := (relayRunMain_okItems_noFail names (initRelay ⟨[], 0⟩ ch receivers)).1
    simp only [initRelay] at h ⊢
    simp [listMessagesMain, get_messages, h, appendRows_texts]

/-- C5 counterexample: after successfully forwarding a propagate-worthy
read error, the relay keeps reading and emits a further acknowledgement —
the error item is not final and the relay does not transition to
CLOSED. -/
theorem c5_counterexample :
    ((relayRunMain none (fun _ => false)
        [Except.error ChainErr.wrapLeaf, Except.ok ⟨"Bob"⟩]
        (initRelay ⟨[], 0⟩ ⟨16, []⟩ 1)).1.out
      = [OutItem.err ChainErr.wrapLeaf, OutItem.ok "Hello Bob!"]) ∧
    ((relayRunMain none (fun _ => false)
        [Except.error ChainErr.wrapLeaf, Except.ok ⟨"Bob"⟩]
        (initRelay ⟨[], 0⟩ ⟨16, []⟩ 1)).2 = RelayExit.inboundDone) :=
  ⟨rfl, rfl⟩

/-- C5 (amended): a benign (broken-pipe) read error closes the relay
immediately with no further output; a propagate-worthy read error is
forwarded as an outbound error item, after which the relay continues
reading when the forward succeeded and breaks only when the forward fails
because the response stream was dropped. -/
theorem c5_amended :
    (∀ closeAt dbFail s e, classify e = Classification.benignDisconnect →
        relayStepMain closeAt dbFail s (Except.error e)
          = (s, some RelayExit.brokenPipe)) ∧
    (∀ closeAt dbFail s e, classify e = Classification.propagate →
        sendOk closeAt s.sentCount = true →
        relayStepMain closeAt dbFail s (Except.error e)
          = ({ s with
                out := s.out ++ [OutItem.err e]
                sentCount := s.sentCount + 1
                trace := s.trace ++ [Ev.errItem] }, none)) ∧
    (∀ closeAt dbFail s e, classify e = Classification.propagate →
        sendOk closeAt s.sentCount = false →
        relayStepMain closeAt dbFail s (Except.error e)
          = (s, some RelayExit.respDropped)) :=
  ⟨relayStepMain_err_benign, relayStepMain_err_fwd, relayStepMain_err_dropped⟩

/-- C5 witness: the three arms at concrete errors and states. -/
theorem c5_witness :
    (relayStepMain none (fun _ => false) (initRelay ⟨[], 0⟩ ⟨16, []⟩ 1)
        (Except.error (ChainErr.ioErr IoKind.brokenPipe))
      = (initRelay ⟨[], 0⟩ ⟨16, []⟩ 1, some RelayExit.brokenPipe)) ∧
    ((relayStepMain none (fun _ => false) (initRelay ⟨[], 0⟩ ⟨16, []⟩ 1)
        (Except.error ChainErr.wrapLeaf)).2 = none) ∧
    (relayStepMain (some 0) (fun _ => false) (initRelay ⟨[], 0⟩ ⟨16, []⟩ 1)
        (Except.error ChainErr.wrapLeaf)
      = (initRelay ⟨[], 0⟩ ⟨16, []⟩ 1, some RelayExit.respDropped)) :=
  ⟨c5_amended.1 none (fun _ => false) (initRelay ⟨[], 0⟩ ⟨16, []⟩ 1)
      (ChainErr.ioErr IoKind.brokenPipe) rfl,
   by rw [c5_amended.2.1 none (fun _ => false) (initRelay ⟨[], 0⟩ ⟨16, []⟩ 1)
      ChainErr.wrapLeaf rfl rfl],
   c5_amended.2.2 (some 0) (fun _ => false) (initRelay ⟨[], 0⟩ ⟨16, []⟩ 1)
      ChainErr.wrapLeaf rfl rfl⟩

/-- C6: for every transport failure value with a finite cause chain, the
relay's classification is BENIGN_DISCONNECT if and only if walking the
chain — source links plus the h2 layer's own I/O-fault encoding — finds a
low-level I/O error and the first one found has the broken-pipe kind; in
every other case (no I/O error in the chain, or a first I/O error of a
different kind) it is PROPAGATE. -/
theorem c6_classifier_benign_iff (e : ChainErr) :
    classify e = Classification.benignDisconnect
      ↔ (ioKindsInChain e).head? = some IoKind.brokenPipe := by
  unfold classify
  rw [← match_for_io_error_head]
  cases h : match_for_io_error e with
  | none => simp
  | some k => cases k <;> simp

/-- C7 counterexample: with the outbound channel closed, the relay's
attempt to enqueue an acknowledgement hits `.expect("working rx")` — the
relay task aborts with a panic rather than transitioning cleanly to
CLOSED. -/
theorem c7_counterexample :
    (relayRunMain (some 0) (fun _ => false) [Except.ok ⟨"Alice"⟩]
        (initRelay ⟨[], 0⟩ ⟨16, []⟩ 1)).2 = RelayExit.panicked := rfl

/-- C7 (amended): when the outbound channel has been closed by the peer,
the relay stops reading further inbound items — but only the error-forward
path breaks cleanly; on the acknowledgement path the failed enqueue aborts
the relay task through the `"working rx"` expectation, i.e. a panic. -/
theorem c7_amended :
    (∀ closeAt dbFail s e rest, classify e = Classification.propagate →
        sendOk closeAt s.sentCount = false →
        relayRunMain closeAt dbFail (Except.error e :: rest) s
          = (s, RelayExit.respDropped)) ∧
    (∀ closeAt dbFail s v, sendOk closeAt s.sentCount = false →
        relayStepMain closeAt dbFail s (Except.ok v)
          = (s, some RelayExit.panicked)) := by
  constructor
  · intro closeAt dbFail s e rest h hs
    rw [relayRunMain, relayStepMain_err_dropped closeAt dbFail s e h hs]
  · exact relayStepMain_ok_closed

/-- C7 witness: a closed outbound channel with a pending error item and a
pending `Ok` item. -/
theorem c7_witness :
    (relayRunMain (some 0) (fun _ => false)
        [Except.error ChainErr.h2Leaf, Except.ok ⟨"Zoe"⟩]
        (initRelay ⟨[], 0⟩ ⟨16, []⟩ 1)
      = (initRelay ⟨[], 0⟩ ⟨16, []⟩ 1, RelayExit.respDropped)) ∧
    (relayStepMain (some 0) (fun _ => false) (initRelay ⟨[], 0⟩ ⟨16, []⟩ 1)
        (Except.ok ⟨"Zoe"⟩)
      = (initRelay ⟨[], 0⟩ ⟨16, []⟩ 1, some RelayExit.panicked)) :=
  ⟨c7_amended.1 (some 0) (fun _ => false) (initRelay ⟨[], 0⟩ ⟨16, []⟩ 1)
      ChainErr.h2Leaf [Except.ok ⟨"Zoe"⟩] rfl rfl,
   c7_amended.2 (some 0) (fun _ => false) (initRelay ⟨[], 0⟩ ⟨16, []⟩ 1) ⟨"Zoe"⟩ rfl⟩

/-- C8 counterexample: a subscriber that lagged behind a capacity-16
channel with 17 published events gets a `Lagged` result, and the
`while let Ok` relay loop thereupon exits — the live-feed stream
terminates on its own even though forwarding to the client still
succeeds. -/
theorem c8_counterexample :
    bchanRecv ⟨16, List.replicate 17 "x"⟩ 0 true = RecvRes.lagged 1 1 ∧
    subRelayMain ⟨16, List.replicate 17 "x"⟩ true true 0 5
      = ([], SubExit.ended) :=
  ⟨rfl, rfl⟩

/-- C8 (amended): the publisher is never stalled or failed by a slow
subscriber (a send with at least one receiver always appends), a
subscriber that falls behind loses the oldest buffered events (its cursor
jumps to the oldest retained value: a gap), but its stream does not
continue past the gap — the relay loop exits on the `Lagged` receive, so
the `ListMessagesStream` ends either then or when forwarding to the
client fails. -/
theorem c8_amended :
    (∀ ch receivers msg, receivers ≠ 0 →
        broadcastSend ch receivers msg
          = Except.ok { ch with history := ch.history ++ [msg] }) ∧
    (∀ ch pos alive, pos < ch.oldest →
        bchanRecv ch pos alive = RecvRes.lagged (ch.oldest - pos) ch.oldest) ∧
    (∀ ch alive fwdOk pos fuel n p2,
        bchanRecv ch pos alive = RecvRes.lagged n p2 →
        subRelayMain ch alive fwdOk pos (fuel + 1) = ([], SubExit.ended)) ∧
    (∀ ch alive pos fuel msg p2,
        bchanRecv ch pos alive = RecvRes.ok msg p2 →
        subRelayMain ch alive false pos (fuel + 1) = ([], SubExit.ended)) := by
  refine ⟨?_, ?_, ?_, ?_⟩
  · intro ch receivers msg h
    simp [broadcastSend, h]
  · intro ch pos alive h
    simp [bchanRecv, h]
  · intro ch alive fwdOk pos fuel n p2 h
    rw [subRelayMain, h]
  · intro ch alive pos fuel msg p2 h
    rw [subRelayMain, h]
    simp

/-- C8 witness: a two-receiver publish, a lagged receive at cursor 2 of a
20-message capacity-16 channel, the loop exit it causes, and the loop exit
a failed forward causes. -/
theorem c8_witness :
    (broadcastSend ⟨16, []⟩ 2 "m" = Except.ok ⟨16, ["m"]⟩) ∧
    (bchanRecv ⟨16, List.replicate 20 "y"⟩ 2 true = RecvRes.lagged 2 4) ∧
    (subRelayMain ⟨16, List.replicate 20 "y"⟩ true true 2 7 = ([], SubExit.ended)) ∧
    (subRelayMain ⟨16, ["a"]⟩ true false 0 3 = ([], SubExit.ended)) :=
  ⟨c8_amended.1 ⟨16, []⟩ 2 "m" (by decide),
   c8_amended.2.1 ⟨16, List.replicate 20 "y"⟩ 2 true (by decide),
   c8_amended.2.2.1 ⟨16, List.replicate 20 "y"⟩ true true 2 6 2 4 (by decide),
   c8_amended.2.2.2 ⟨16, ["a"]⟩ true 0 2 "a" 1 (by decide)⟩

/-- C9 counterexample: on the unary path an append failure prevents both
the reply and the broadcast — the handler returns an internal-error status
and its trace records the failed append with no publish after it. -/
theorem c9_counterexample :
    (sayHelloMain ⟨[], 0⟩ true ⟨16, []⟩ 1 "Dave").result
        = Except.error ⟨Code.internal, "Database error"⟩ ∧
    (sayHelloMain ⟨[], 0⟩ true ⟨16, []⟩ 1 "Dave").trace
        = [Ev.append "Hello Dave!" false] :=
  ⟨rfl, rfl⟩

/-- C9 (amended): on both send paths the persistence append is issued
before the broadcast publish; on the streaming path an append failure
prevents neither the acknowledgement (which is enqueued before the append)
nor the publish; on the unary path an append failure aborts the request —
no reply and no publish. -/
theorem c9_amended :
    (∀ db ch receivers name,
        (sayHelloMain db false ch receivers name).trace
          = [Ev.append (greet name) true, Ev.publish (greet name)]) ∧
    (∀ names db ch receivers,
        (relayRunMain none (fun _ => false) (okItems names)
            (initRelay db ch receivers)).1.trace = traceOf names) ∧
    (∀ closeAt dbFail s v, sendOk closeAt s.sentCount = true →
        (relayStepMain closeAt dbFail s (Except.ok v)).1.trace
          = s.trace ++ [Ev.ack (greet v.name),
              Ev.append v.name (!dbFail s.dbCalls), Ev.publish v.name] ∧
        (relayStepMain closeAt dbFail s (Except.ok v)).2 = none) ∧
    (∀ db ch receivers name,
        (sayHelloMain db true ch receivers name).trace
            = [Ev.append (greet name) false] ∧
        (sayHelloMain db true ch receivers name).result
            = Except.error ⟨Code.internal, "Database error"⟩) := by
  refine ⟨?_, ?_, ?_, ?_⟩
  · intro db ch receivers name
    by_cases hr : receivers = 0 <;>
      simp [sayHelloMain, insert_message, broadcastMain, broadcastSend, hr]
  · intro names db ch receivers
    have h := (relayRunMain_okItems_noFail names (initRelay db ch receivers)).2.2
    simpa [initRelay] using h
  · intro closeAt dbFail s v h
    rw [relayStepMain_ok_spec closeAt dbFail s v h]
    exact ⟨rfl, rfl⟩
  · intro db ch receivers name
    exact ⟨rfl, rfl⟩

/-- C9 witness: one streaming item processed under a failing insert oracle
still produces acknowledgement, append and publish in order. -/
theorem c9_witness :
    (relayStepMain none (fun _ => true) (initRelay ⟨[], 0⟩ ⟨16, []⟩ 1)
        (Except.ok ⟨"Eve"⟩)).1.trace
      = [Ev.ack (greet "Eve"), Ev.append "Eve" false, Ev.publish "Eve"] ∧
    (relayStepMain none (fun _ => true) (initRelay ⟨[], 0⟩ ⟨16, []⟩ 1)
        (Except.ok ⟨"Eve"⟩)).2 = none :=
  c9_amended.2.2.1 none (fun _ => true) (initRelay ⟨[], 0⟩ ⟨16, []⟩ 1) ⟨"Eve"⟩ rfl

/-- C10 counterexample: the two implementations are not behaviourally
equivalent — with zero subscribers and persistence available, the
`main.rs` unary handler returns an internal-error status while the
`greeter.rs` one returns the normal reply. -/
theorem c10_counterexample :
    (sayHelloMain ⟨[], 0⟩ false ⟨16, []⟩ 0 "Bob").result
        = Except.error ⟨Code.internal, "channel closed"⟩ ∧
    (sayHelloLib ⟨[], 0⟩ false ⟨16, []⟩ 0 "Bob").result
        = Except.ok ⟨"Hello Bob!"⟩ :=
  ⟨rfl, rfl⟩

/-- C10 (amended): the two implementations agree on `say_hello_stream`,
`list_messages` and `list_messages_stream` for every input and oracle, and
on unary `say_hello` whenever at least one live subscriber exists; they
differ only on a unary send whose broadcast fails (zero subscribers),
where `main.rs` propagates the failure and `greeter.rs` ignores it. -/
theorem c10_amended :
    (∀ closeAt dbFail items s,
        relayRunMain closeAt dbFail items s = relayRunLib closeAt dbFail items s) ∧
    (∀ db dbFail, listMessagesMain db dbFail = listMessagesLib db dbFail) ∧
    (∀ ch senderAlive fwdOk pos fuel,
        subRelayMain ch senderAlive fwdOk pos fuel
          = subRelayLib ch senderAlive fwdOk pos fuel) ∧
    (∀ db dbFail ch receivers name, receivers ≠ 0 →
        sayHelloMain db dbFail ch receivers name
          = sayHelloLib db dbFail ch receivers name) :=
  ⟨relayRun_eq, listMessages_eq, subRelay_eq, sayHello_eq⟩

/-- C10 witness: the unary conjunct at three subscribers. -/
theorem c10_witness :
    sayHelloMain ⟨[], 0⟩ false ⟨16, []⟩ 3 "Bob"
      = sayHelloLib ⟨[], 0⟩ false ⟨16, []⟩ 3 "Bob" :=
  c10_amended.2.2.2 ⟨[], 0⟩ false ⟨16, []⟩ 3 "Bob" (by decide)

end Hello
